import Mathlib

/-!
Verification of the repl-box server (src/repl_box/server.py) and the
notebook capture sanitizer (src/repl_box/_notebook.py) against its
specification, via a shallow embedding.

Modelling conventions:
* Python exceptions are classified by the only distinctions the code makes:
  SyntaxError (caught by the inner handler in `execute`), any other subclass
  of Exception (caught by the outer handlers), and BaseException-only
  exceptions such as SystemExit/KeyboardInterrupt which no handler in the
  server catches.
* A value is abstract: we record whether it is Python None, the outcome of
  repr(v), the outcome of base64(cloudpickle.dumps(v)) (pickling failures
  are ordinary exceptions, so that outcome is an Except over a trace
  string), and an opaque payload distinguishing values.
* The namespace dict is an association list with dict.update semantics.
* A code fragment is modelled by: whether compile(text, "eval") and
  compile(text, "exec") succeed, and the behaviour (namespace transition,
  captured stdout/stderr text, outcome) of running each compiled form,
  as functions of the namespace the run starts from.
* str.splitlines is modelled for the "\n" terminator (the only one the
  formatting claims are about).
-/

namespace ReplBox

/-- Classification of a raised Python exception by the handlers the server
has: `syntaxError` is caught by `except SyntaxError`, `exception` is any
other subclass of `Exception`, `baseOnly` is a `BaseException` that is not
an `Exception` (e.g. `SystemExit`). -/
inductive ExcClass where
  | syntaxError
  | exception
  | baseOnly
deriving DecidableEq, Repr

/-- Whether `except Exception` catches this class. -/
def ExcClass.isException : ExcClass → Bool
  | .syntaxError => true
  | .exception => true
  | .baseOnly => false

/-- A raised exception: its class and the text `traceback.format_exc().strip()`
would produce for it. -/
structure PyExc where
  cls : ExcClass
  trace : String
deriving DecidableEq, Repr

instance {ε α : Type} [DecidableEq ε] [DecidableEq α] : DecidableEq (Except ε α) := fun a b =>
  match a, b with
  | .ok x, .ok y =>
      if h : x = y then isTrue (by rw [h]) else isFalse (by intro hh; cases hh; exact h rfl)
  | .error x, .error y =>
      if h : x = y then isTrue (by rw [h]) else isFalse (by intro hh; cases hh; exact h rfl)
  | .ok _, .error _ => isFalse (by intro hh; cases hh)
  | .error _, .ok _ => isFalse (by intro hh; cases hh)

/-- An abstract Python value held in the namespace. `rep` is the outcome of
`repr(v)` (which may itself raise); `enc` is the outcome of
`base64.b64encode(cloudpickle.dumps(v)).decode()`, either the encoded text
or the trace of the raised pickling error. -/
structure Value where
  isNone : Bool
  rep : Except PyExc String
  enc : Except String String
  payload : Nat
deriving DecidableEq, Repr

/-- The session namespace: the server-side dict, as an association list. -/
abbrev Namespace := List (String × Value)

/-- `d[k] = v` on a dict: replace the binding if the key is present,
otherwise append it. -/
def nsSet (ns : Namespace) (k : String) (v : Value) : Namespace :=
  if ns.any (fun p => p.1 = k) then
    ns.map (fun p => if p.1 = k then (k, v) else p)
  else ns ++ [(k, v)]

/-- `namespace.update(updates)`: later values win on key collision. -/
def nsUpdate (ns : Namespace) (updates : List (String × Value)) : Namespace :=
  updates.foldl (fun acc p => nsSet acc p.1 p.2) ns

/-- Dict lookup, `none` when the key is absent. -/
def nsGet (ns : Namespace) (k : String) : Option Value :=
  (ns.find? (fun p => p.1 = k)).map (fun p => p.2)

/-- Outcome of running a fragment compiled in expression ("eval") form from
a given namespace: the namespace after the run (including mutations made
before a raise), the text written to stdout and stderr during the run, and
either the resulting value (`none` = Python None) or the raised exception. -/
structure EvalOutcome where
  ns : Namespace
  out : String
  errOut : String
  result : Except PyExc (Option Value)

/-- Outcome of running a fragment compiled in statement ("exec") form. -/
structure ExecOutcome where
  ns : Namespace
  out : String
  errOut : String
  result : Except PyExc Unit

/-- A submitted code fragment: its source text, whether each compilation
form succeeds, and the behaviour of running each compiled form. When
`compile(text, "exec")` fails, `execCompileTrace` is the trace of that
SyntaxError. -/
structure Fragment where
  text : String
  exprCompiles : Bool
  evalRun : Namespace → EvalOutcome
  execCompiles : Bool
  execCompileTrace : String
  execRun : Namespace → ExecOutcome

/-- What the region guarded by the outer `try` of `execute` produced: the
namespace after it, the two captured buffers, the value of `out_repr`, the
exception (if any) escaping toward the outer `except Exception`, and
whether the `except SyntaxError: exec(...)` fallback handler ran. -/
structure BodyResult where
  ns : Namespace
  out : String
  errOut : String
  outRepr : Option String
  exc : Option PyExc
  usedFallback : Bool

/-- The `except SyntaxError:` handler of `execute`: compile and run the
fragment in statement form, starting from the namespace and buffer contents
the expression attempt left behind. A compile failure raises SyntaxError,
which escapes to the outer handler. -/
def execFallback (f : Fragment) (ns : Namespace) (out errOut : String) : BodyResult :=
  if f.execCompiles then
    let r := f.execRun ns
    match r.result with
    | .ok _ => ⟨r.ns, out ++ r.out, errOut ++ r.errOut, none, none, true⟩
    | .error e => ⟨r.ns, out ++ r.out, errOut ++ r.errOut, none, some e, true⟩
  else
    ⟨ns, out, errOut, none, some ⟨ExcClass.syntaxError, f.execCompileTrace⟩, true⟩

/-- The body of the `with redirect_stdout, redirect_stderr` block of
`execute`: try the expression form (`eval(compile(code, "eval"))`, then
`out_repr = repr(result)` when the result is not None); any SyntaxError
raised in that attempt — at compile time or while it runs — lands in the
fallback handler; any other exception escapes to the outer handler. -/
def runBody (f : Fragment) (ns : Namespace) : BodyResult :=
  if f.exprCompiles then
    let r := f.evalRun ns
    match r.result with
    | .ok none => ⟨r.ns, r.out, r.errOut, none, none, false⟩
    | .ok (some v) =>
        match v.rep with
        | .ok s => ⟨r.ns, r.out, r.errOut, some s, none, false⟩
        | .error e =>
            if e.cls = ExcClass.syntaxError then execFallback f r.ns r.out r.errOut
            else ⟨r.ns, r.out, r.errOut, none, some e, false⟩
    | .error e =>
        if e.cls = ExcClass.syntaxError then execFallback f r.ns r.out r.errOut
        else ⟨r.ns, r.out, r.errOut, none, some e, false⟩
  else
    execFallback f ns "" ""

/-- Split a character list at each newline (auxiliary for splitting text
into newline-separated pieces, as `str.split` with separator "\n" does). -/
def splitNlAux : List Char → List Char → List String
  | [], acc => [String.mk acc.reverse]
  | c :: cs, acc =>
      if c = '\n' then String.mk acc.reverse :: splitNlAux cs [] else splitNlAux cs (c :: acc)

/-- `s.split("\n")`: the newline-separated pieces of `s`; never empty, and
`""` gives `[""]`. -/
def splitNl (s : String) : List String :=
  splitNlAux s.data []

/-- `str.splitlines` restricted to the "\n" terminator: `""` gives `[]`,
a trailing newline does not create a final empty element. -/
def pySplitlines (s : String) : List String :=
  let parts := splitNl s
  if parts.getLast? = some "" then parts.dropLast else parts

/-- `_format_input(code, n)`: transcript header `In [n]: ` with the first
line, each further line prefixed by `   ...: `. -/
def _format_input (code : String) (n : Nat) : String :=
  let lines := if pySplitlines code = [] then [""] else pySplitlines code
  let header := "In [" ++ toString n ++ "]: " ++ lines.headD "" ++ "\n"
  let continuation := String.join ((lines.drop 1).map (fun line => "   ...: " ++ line ++ "\n"))
  header ++ continuation

/-- The captured-stdout part of the composed `stdout` field: the raw buffer
contents if non-empty, with a newline appended when it does not end in one. -/
def appendCaptured (raw : String) : String :=
  if raw = "" then "" else if raw.data.getLast? = some '\n' then raw else raw ++ "\n"

/-- The trailing `Out[n]: <rendered>` line. -/
def outLine (n : Nat) (r : String) : String :=
  "Out[" ++ toString n ++ "]: " ++ r ++ "\n"

/-- How `execute` composes the `stdout` field of its response. -/
def composeStdout (code : String) (counter : Nat) (raw : String) (outRepr : Option String) : String :=
  _format_input code counter ++ appendCaptured raw ++
    (match outRepr with | some r => outLine counter r | none => "")

/-- A server response. `value = none` means the field is absent (code/set
responses); `some none` is an explicit null; `some (some s)` is an encoded
value. -/
structure Response where
  stdout : String
  stderr : String
  error : Option String
  value : Option (Option String)
deriving DecidableEq, Repr

/-- Result of `execute`: a response and the namespace after it, or a
propagating exception no handler in `execute` caught (the namespace is
still mutated in place). -/
inductive ExecuteResult where
  | ok (resp : Response) (ns : Namespace)
  | crash (e : PyExc) (ns : Namespace)
deriving DecidableEq, Repr

/-- `execute(code, namespace, counter)`: run the body under the redirected
buffers; an `Exception` becomes the `error` field of the response, anything
else propagates. -/
def execute (f : Fragment) (ns : Namespace) (counter : Nat) : ExecuteResult :=
  let b := runBody f ns
  match b.exc with
  | some e =>
      if e.cls.isException then
        .ok ⟨composeStdout f.text counter b.out b.outRepr, b.errOut, some e.trace, none⟩ b.ns
      else
        .crash e b.ns
  | none =>
      .ok ⟨composeStdout f.text counter b.out b.outRepr, b.errOut, none, none⟩ b.ns

/-- The decoded payload of a `{"set": ...}` request: the outcome of
`cloudpickle.loads(base64.b64decode(payload))`, either the decoded mapping
or the trace of the raised decoding error. -/
structure SetPayload where
  decodeResult : Except String (List (String × Value))

/-- A decoded JSON request object; each field is present or absent. The
handler tests the keys in the source order `set`, `get`, `code`. -/
structure Request where
  setField : Option SetPayload
  getField : Option String
  codeField : Option Fragment

/-- The state `serve` threads through connections: the session namespace
and the execution counter cell. -/
structure ServerState where
  ns : Namespace
  counter : Nat
deriving DecidableEq, Repr

/-- Result of handling one decoded request: a response and the new state,
or an uncaught exception propagating out of `handle` (killing the server). -/
inductive ReqResult where
  | ok (resp : Response) (st : ServerState)
  | crash (e : PyExc) (st : ServerState)
deriving DecidableEq, Repr

/-- The dispatch part of `handle`, after a frame has been decoded:
`if "set" in request: ... elif "get" in request: ... elif "code" in
request: ... else: bad request`. -/
def handleRequest (req : Request) (st : ServerState) : ReqResult :=
  match req.setField with
  | some p =>
      match p.decodeResult with
      | .ok updates => .ok ⟨"", "", none, none⟩ ⟨nsUpdate st.ns updates, st.counter⟩
      | .error t => .ok ⟨"", "", some t, none⟩ st
  | none =>
      match req.getField with
      | some name =>
          match nsGet st.ns name with
          | none =>
              .ok ⟨"", "", some ("NameError: name \x27" ++ name ++ "\x27 is not defined"),
                some none⟩ st
          | some v =>
              match v.enc with
              | .ok s => .ok ⟨"", "", none, some (some s)⟩ st
              | .error t => .ok ⟨"", "", some t, some none⟩ st
      | none =>
          match req.codeField with
          | some f =>
              match execute f st.ns st.counter with
              | .ok resp ns2 => .ok resp ⟨ns2, st.counter + 1⟩
              | .crash e ns2 => .crash e ⟨ns2, st.counter⟩
          | none =>
              .ok ⟨"", "", some "Bad request: missing \x27code\x27, \x27set\x27, or \x27get\x27",
                none⟩ st

/-- `data.split(b"\n")[0]` where `data` is everything received before the
first chunk containing a newline, or everything sent when the peer closed
without sending one: in both cases the text before the first newline. -/
def rawFrame (received : String) : String :=
  (splitNl received).headD ""

/-- Result of one whole connection: closed silently (no response frame
written), one response frame written, or an uncaught exception. -/
inductive FrameResult where
  | silent (st : ServerState)
  | replied (resp : Response) (st : ServerState)
  | crash (e : PyExc) (st : ServerState)
deriving DecidableEq, Repr

/-- The response `handle` writes when `json.loads` raises. -/
def badRequest (msg : String) : Response :=
  ⟨"", "", some ("Bad request: " ++ msg), none⟩

/-- `handle` at the frame level, parameterised by the JSON decoder (an
`.error` result is a `json.JSONDecodeError` with its message): an empty
first line means return without writing anything, otherwise decode and
dispatch. -/
def handleFrame (decode : String → Except String Request) (received : String)
    (st : ServerState) : FrameResult :=
  let raw := rawFrame received
  if raw = "" then .silent st
  else
    match decode raw with
    | .error msg => .replied (badRequest msg) st
    | .ok req =>
        match handleRequest req st with
        | .ok resp st2 => .replied resp st2
        | .crash e st2 => .crash e st2

/-- The observable outcome of the `serve` accept loop over a sequence of
decoded requests: the responses written, the final state, and the
exception that killed the process if one escaped `handle`. -/
structure ServeResult where
  responses : List Response
  final : ServerState
  crashed : Option PyExc
deriving DecidableEq, Repr

/-- The `serve` accept loop over a list of decoded requests (one
connection each, strictly sequential). `handle` is not wrapped in any
handler, so an exception it propagates ends the loop: later connections
are never served. -/
def runServer : ServerState → List Request → ServeResult
  | st, [] => ⟨[], st, none⟩
  | st, r :: rs =>
      match handleRequest r st with
      | .ok resp st2 =>
          let rest := runServer st2 rs
          ⟨resp :: rest.responses, rest.final, rest.crashed⟩
      | .crash e st2 => ⟨[], st2, some e⟩

/-- A request that carries only a `code` field. -/
def codeRequest (f : Fragment) : Request := ⟨none, none, some f⟩

/-- A request that carries only a `set` field. -/
def setRequest (p : SetPayload) : Request := ⟨some p, none, none⟩

/-- A request that carries only a `get` field. -/
def getRequest (name : String) : Request := ⟨none, some name, none⟩

/-! Concrete values and fragments used to instantiate the theorems. -/

/-- A sample encodable value. -/
def vTen : Value := ⟨false, Except.ok "10", Except.ok "encTen", 10⟩

/-- A value whose `cloudpickle.dumps` raises (e.g. it holds an open
socket). -/
def vBadEnc : Value := ⟨false, Except.ok "badval", Except.error "TypeError: cannot pickle", 11⟩

/-- The fragment `1 + 1`: a bare expression returning 2, no output, no
raise, no namespace mutation. -/
def fragExprOk : Fragment where
  text := "1 + 1"
  exprCompiles := true
  evalRun := fun ns => ⟨ns, "", "", Except.ok (some ⟨false, Except.ok "2", Except.ok "enc2", 2⟩)⟩
  execCompiles := true
  execCompileTrace := ""
  execRun := fun ns => ⟨ns, "", "", Except.ok ()⟩

/-- The fragment `1/0`: a bare expression raising ZeroDivisionError. -/
def fragRaise : Fragment where
  text := "1/0"
  exprCompiles := true
  evalRun := fun ns =>
    ⟨ns, "", "", Except.error ⟨ExcClass.exception, "ZeroDivisionError: division by zero"⟩⟩
  execCompiles := true
  execCompileTrace := ""
  execRun := fun ns => ⟨ns, "", "", Except.ok ()⟩

/-- The fragment `import sys; sys.exit()` submitted as the expression
`sys.exit()`: evaluating it raises SystemExit, which is a BaseException
but not an Exception. -/
def fragSysExit : Fragment where
  text := "sys.exit()"
  exprCompiles := true
  evalRun := fun ns => ⟨ns, "", "", Except.error ⟨ExcClass.baseOnly, "SystemExit"⟩⟩
  execCompiles := true
  execCompileTrace := ""
  execRun := fun ns => ⟨ns, "", "", Except.ok ()⟩

/-- The fragment `print(1) or compile("(", "f", "eval")`: a bare
expression whose run first prints `1` and then raises SyntaxError at run
time (from the nested `compile` call); its statement form does the same. -/
def fragDoubleRun : Fragment where
  text := "print(1) or compile(\"(\", \"f\", \"eval\")"
  exprCompiles := true
  evalRun := fun ns =>
    ⟨ns, "1\n", "", Except.error ⟨ExcClass.syntaxError, "SyntaxError: unexpected EOF"⟩⟩
  execCompiles := true
  execCompileTrace := ""
  execRun := fun ns =>
    ⟨ns, "1\n", "", Except.error ⟨ExcClass.syntaxError, "SyntaxError: unexpected EOF"⟩⟩

/-- A set payload decoding to `{a: 10}`. -/
def payloadA : SetPayload := ⟨Except.ok [("a", vTen)]⟩

/-- A JSON decoder behaviour rejecting every frame, as `json.loads` does
on a truncated frame such as `x`. -/
def decodeFail : String → Except String Request :=
  fun _ => Except.error "Expecting value: line 1 column 1 (char 0)"

/-! Theorems. -/

/-- C4: a `{"set": payload}` request whose payload fails to decode sends a
response carrying the failure trace as its non-null `error` and leaves the
whole server state — in particular every binding of the namespace —
exactly as it was before the request. -/
theorem set_decode_failure_atomic (st : ServerState) (p : SetPayload) (t : String)
    (h : p.decodeResult = Except.error t) :
    handleRequest (setRequest p) st = ReqResult.ok ⟨"", "", some t, none⟩ st := by
  simp [handleRequest, setRequest, h]

/-- Witness for `set_decode_failure_atomic`: a payload whose decode raised
with trace `boom`, against a one-entry namespace. -/
theorem set_decode_failure_atomic_witness :
    handleRequest (setRequest ⟨Except.error "boom"⟩) ⟨[("x", vTen)], 5⟩ =
      ReqResult.ok ⟨"", "", some "boom", none⟩ ⟨[("x", vTen)], 5⟩ :=
  set_decode_failure_atomic ⟨[("x", vTen)], 5⟩ ⟨Except.error "boom"⟩ "boom" rfl

/-- C10: a `{"get": name}` request always ends in `ok` with the state it
started from (namespace and counter untouched); an absent name yields the
distinct NameError text with a null value, and an encode failure yields
the failure trace with a null value. -/
theorem get_request_read_only (st : ServerState) (name : String) :
    (∃ resp, handleRequest (getRequest name) st = ReqResult.ok resp st) ∧
    (nsGet st.ns name = none →
      handleRequest (getRequest name) st =
        ReqResult.ok
          ⟨"", "", some ("NameError: name \x27" ++ name ++ "\x27 is not defined"), some none⟩
          st) ∧
    (∀ v t, nsGet st.ns name = some v → v.enc = Except.error t →
      handleRequest (getRequest name) st = ReqResult.ok ⟨"", "", some t, some none⟩ st) := by
  refine ⟨?_, ?_, ?_⟩
  · match h : nsGet st.ns name with
    | none =>
        exact ⟨⟨"", "", some ("NameError: name \x27" ++ name ++ "\x27 is not defined"),
          some none⟩, by simp [handleRequest, getRequest, h]⟩
    | some v =>
        match henc : v.enc with
        | .ok s => exact ⟨⟨"", "", none, some (some s)⟩,
            by simp [handleRequest, getRequest, h, henc]⟩
        | .error t => exact ⟨⟨"", "", some t, some none⟩,
            by simp [handleRequest, getRequest, h, henc]⟩
  · intro h
    simp [handleRequest, getRequest, h]
  · intro v t h henc
    simp [handleRequest, getRequest, h, henc]

/-- Witness for `get_request_read_only`: a missing name on an empty
namespace, and an entry whose encode raises, on a concrete state. -/
theorem get_request_read_only_witness :
    handleRequest (getRequest "y") ⟨[], 3⟩ =
      ReqResult.ok
        ⟨"", "", some ("NameError: name \x27" ++ "y" ++ "\x27 is not defined"), some none⟩
        ⟨[], 3⟩ ∧
    handleRequest (getRequest "z") ⟨[("z", vBadEnc)], 3⟩ =
      ReqResult.ok ⟨"", "", some "TypeError: cannot pickle", some none⟩ ⟨[("z", vBadEnc)], 3⟩ :=
  ⟨(get_request_read_only ⟨[], 3⟩ "y").2.1 rfl,
   (get_request_read_only ⟨[("z", vBadEnc)], 3⟩ "z").2.2 vBadEnc "TypeError: cannot pickle"
     rfl rfl⟩

/-- The fallback handler never sets `out_repr`. -/
lemma execFallback_outRepr (f : Fragment) (ns : Namespace) (out errOut : String) :
    (execFallback f ns out errOut).outRepr = none := by
  unfold execFallback
  split
  · cases h : (f.execRun ns).result <;> simp [h]
  · rfl

/-- `out_repr` is set exactly by a completed expression run: the fragment
compiled in expression form, evaluation returned a non-None value, and
`repr` of that value returned the rendering. -/
lemma runBody_outRepr_some_iff (f : Fragment) (ns : Namespace) (r : String) :
    (runBody f ns).outRepr = some r ↔
      (f.exprCompiles = true ∧ ∃ v, (f.evalRun ns).result = Except.ok (some v) ∧
        v.rep = Except.ok r) := by
  unfold runBody
  by_cases hc : f.exprCompiles
  · simp only [hc, if_true]
    cases hres : (f.evalRun ns).result with
    | ok o =>
        cases o with
        | none => simp [hres]
        | some v =>
            cases hrep : v.rep with
            | ok s => simp [hres, hrep]
            | error e =>
                by_cases he : e.cls = ExcClass.syntaxError
                · simp [hres, hrep, he, execFallback_outRepr]
                · simp [hres, hrep, he]
    | error e =>
        by_cases he : e.cls = ExcClass.syntaxError
        · simp [hres, he, execFallback_outRepr]
        · simp [hres, he]
  · simp [hc, execFallback_outRepr]

/-- When `out_repr` is set, no exception escaped toward the outer handler. -/
lemma runBody_outRepr_exc (f : Fragment) (ns : Namespace) :
    (runBody f ns).outRepr = none ∨ (runBody f ns).exc = none := by
  unfold runBody
  by_cases hc : f.exprCompiles
  · simp only [hc, if_true]
    cases hres : (f.evalRun ns).result with
    | ok o =>
        cases o with
        | none => simp
        | some v =>
            cases hrep : v.rep with
            | ok s => simp [hrep]
            | error e =>
                by_cases he : e.cls = ExcClass.syntaxError
                · simp [hrep, he, execFallback_outRepr]
                · simp [hrep, he]
    | error e =>
        by_cases he : e.cls = ExcClass.syntaxError
        · simp [he, execFallback_outRepr]
        · simp [he]
  · simp [hc, execFallback_outRepr]

/-- Shape of a non-crashing `execute` call: the response carries the
composed stdout, the captured stderr, the error field reflecting the
escaped exception, and the namespace the body left behind. -/
lemma execute_ok_resp (f : Fragment) (ns : Namespace) (n : Nat) (resp : Response)
    (ns2 : Namespace) (h : execute f ns n = ExecuteResult.ok resp ns2) :
    resp.stdout = composeStdout f.text n (runBody f ns).out (runBody f ns).outRepr ∧
    resp.stderr = (runBody f ns).errOut ∧
    ((runBody f ns).exc = none → resp.error = none) ∧
    (∀ e, (runBody f ns).exc = some e → resp.error = some e.trace) ∧
    ns2 = (runBody f ns).ns := by
  simp only [execute] at h
  cases hb : (runBody f ns).exc with
  | some e =>
      simp only [hb] at h
      by_cases hie : e.cls.isException = true
      · rw [if_pos hie] at h
        injection h with h1 h2
        subst h1
        subst h2
        refine ⟨rfl, rfl, ?_, ?_, rfl⟩
        · intro hn
          exact Option.noConfusion hn
        · intro e2 he2
          injection he2 with he3
          subst he3
          rfl
      · rw [if_neg hie] at h
        exact ExecuteResult.noConfusion h
  | none =>
      simp only [hb] at h
      injection h with h1 h2
      subst h1
      subst h2
      refine ⟨rfl, rfl, fun _ => rfl, ?_, rfl⟩
      intro e2 he2
      exact Option.noConfusion he2

/-- C6: for a code request handled at counter value `n`, the response
stdout is exactly the transcript header (`In [n]: ` and the echoed
fragment), then the captured standard-output text with a newline ensured
when non-empty, then an `Out[n]: ` line; that line is present exactly when
the fragment completed in expression form with a non-None result and a
successful rendering, and never when the response reports an error. -/
theorem stdout_composition (f : Fragment) (ns : Namespace) (n : Nat) (resp : Response)
    (ns2 : Namespace) (h : execute f ns n = ExecuteResult.ok resp ns2) :
    (resp.stdout =
      _format_input f.text n ++ appendCaptured (runBody f ns).out ++
        (match (runBody f ns).outRepr with
          | some r => outLine n r
          | none => "")) ∧
    (∀ r, ((runBody f ns).outRepr = some r ↔
      f.exprCompiles = true ∧ ∃ v, (f.evalRun ns).result = Except.ok (some v) ∧
        v.rep = Except.ok r)) ∧
    ((runBody f ns).outRepr.isSome = true → resp.error = none) := by
  obtain ⟨h1, _, h3, _, _⟩ := execute_ok_resp f ns n resp ns2 h
  refine ⟨?_, fun r => runBody_outRepr_some_iff f ns r, ?_⟩
  · rw [h1]
    rfl
  · intro hsome
    rcases runBody_outRepr_exc f ns with hn | hn
    · rw [hn] at hsome
      exact Bool.noConfusion hsome
    · exact h3 hn

/-- Witness for `stdout_composition`: the fragment `1 + 1` at counter 1
produces `In [1]: 1 + 1` followed by `Out[1]: 2`. -/
theorem stdout_composition_witness :
    ((⟨"In [1]: 1 + 1\nOut[1]: 2\n", "", none, none⟩ : Response).stdout =
      _format_input fragExprOk.text 1 ++ appendCaptured (runBody fragExprOk []).out ++
        (match (runBody fragExprOk []).outRepr with
          | some r => outLine 1 r
          | none => "")) ∧
    (∀ r, ((runBody fragExprOk []).outRepr = some r ↔
      fragExprOk.exprCompiles = true ∧
        ∃ v, (fragExprOk.evalRun []).result = Except.ok (some v) ∧
          v.rep = Except.ok r)) ∧
    ((runBody fragExprOk []).outRepr.isSome = true →
      (⟨"In [1]: 1 + 1\nOut[1]: 2\n", "", none, none⟩ : Response).error = none) :=
  stdout_composition fragExprOk [] 1 ⟨"In [1]: 1 + 1\nOut[1]: 2\n", "", none, none⟩ [] rfl

/-- Counterexample to C2 as stated: the multi-shaped request
`{"set": payloadA, "code": "1 + 1"}` is not rejected — the handler
performs the merge (response error is null, the namespace gains the
binding `a`), dispatching by the fixed priority set before code. -/
theorem multi_shaped_request_cex :
    handleRequest ⟨some payloadA, none, some fragExprOk⟩ ⟨[], 1⟩ =
      ReqResult.ok ⟨"", "", none, none⟩ ⟨[("a", vTen)], 1⟩ ∧
    (⟨[("a", vTen)], 1⟩ : ServerState) ≠ ⟨[], 1⟩ :=
  ⟨rfl, by decide⟩

/-- C2 amended: a decoded request object carrying more than one of the
fields `set`, `get`, `code` is dispatched — not rejected — according to
the fixed priority `set`, then `get`, then `code`, behaving exactly as the
request carrying only its highest-priority field; only a request carrying
none of the three is answered with the Bad request error, with namespace
and counter unchanged. -/
theorem multi_shaped_priority_dispatch (st : ServerState) (req : Request) :
    (∀ p, req.setField = some p →
        handleRequest req st = handleRequest (setRequest p) st) ∧
    (∀ name, req.setField = none → req.getField = some name →
        handleRequest req st = handleRequest (getRequest name) st) ∧
    (∀ f, req.setField = none → req.getField = none → req.codeField = some f →
        handleRequest req st = handleRequest (codeRequest f) st) ∧
    (req.setField = none → req.getField = none → req.codeField = none →
        handleRequest req st =
          ReqResult.ok
            ⟨"", "", some "Bad request: missing \x27code\x27, \x27set\x27, or \x27get\x27",
              none⟩ st) := by
  obtain ⟨s, g, c⟩ := req
  refine ⟨?_, ?_, ?_, ?_⟩ <;> intros <;> subst_vars <;>
    simp [handleRequest, setRequest, getRequest, codeRequest]

/-- Witness for `multi_shaped_priority_dispatch`: the request holding both
a `set` and a `code` field behaves as the pure `set` request. -/
theorem multi_shaped_priority_dispatch_witness :
    handleRequest ⟨some payloadA, none, some fragExprOk⟩ ⟨[("b", vTen)], 4⟩ =
      handleRequest (setRequest payloadA) ⟨[("b", vTen)], 4⟩ :=
  (multi_shaped_priority_dispatch ⟨[("b", vTen)], 4⟩
    ⟨some payloadA, none, some fragExprOk⟩).1 payloadA rfl

/-- Counterexample to C3 as stated: the peer sends the single byte `x` and
closes without ever sending a newline; the handler does not treat this as
"no request" — it parses `x` as a frame and writes a Bad request response
frame. -/
theorem partial_frame_replied_cex :
    handleFrame decodeFail "x" ⟨[], 1⟩ =
      FrameResult.replied (badRequest "Expecting value: line 1 column 1 (char 0)") ⟨[], 1⟩ :=
  rfl

/-- C3 amended: the connection is closed silently — no response frame, no
dispatch, namespace and counter unchanged — exactly when the text before
the first newline (all received bytes, when the peer closed before sending
one) is empty; whenever that first line is non-empty, the handler never
closes silently: it parses the line and writes a response (or dies on a
propagating execution exception). -/
theorem empty_frame_silent (decode : String → Except String Request) (received : String)
    (st : ServerState) :
    (rawFrame received = "" → handleFrame decode received st = FrameResult.silent st) ∧
    (rawFrame received ≠ "" → ∀ st2, handleFrame decode received st ≠ FrameResult.silent st2) := by
  constructor
  · intro h
    simp [handleFrame, h]
  · intro h st2
    cases hd : decode (rawFrame received) with
    | error msg => simp [handleFrame, h, hd]
    | ok req =>
        cases hr : handleRequest req st with
        | ok resp st3 => simp [handleFrame, h, hd, hr]
        | crash e st3 => simp [handleFrame, h, hd, hr]

/-- Witness for `empty_frame_silent`: a stream that closes with no bytes
is silent; the stream `x` is never silent. -/
theorem empty_frame_silent_witness :
    handleFrame decodeFail "" ⟨[], 1⟩ = FrameResult.silent ⟨[], 1⟩ ∧
    (∀ st2, handleFrame decodeFail "x" ⟨[], 1⟩ ≠ FrameResult.silent st2) :=
  ⟨(empty_frame_silent decodeFail "" ⟨[], 1⟩).1 rfl,
   (empty_frame_silent decodeFail "x" ⟨[], 1⟩).2 (by decide)⟩

/-- The fallback handler always marks that it ran. -/
lemma execFallback_usedFallback (f : Fragment) (ns : Namespace) (out errOut : String) :
    (execFallback f ns out errOut).usedFallback = true := by
  unfold execFallback
  split
  · cases h : (f.execRun ns).result <;> simp [h]
  · rfl

/-- Counterexample to C5 as stated: the fragment
`print(1) or compile("(", "f", "eval")` is syntactically a bare expression
(its expression compile succeeds), yet the statement-sequence fallback
also runs — after the expression form already ran the fragment and printed
`1` — so the print side effect lands in the captured output twice. -/
theorem double_execution_cex :
    fragDoubleRun.exprCompiles = true ∧
    (runBody fragDoubleRun []).usedFallback = true ∧
    (runBody fragDoubleRun []).out = "1\n1\n" :=
  ⟨rfl, rfl, rfl⟩

/-- C5 amended: the statement-sequence fallback runs exactly when the
expression compile fails or the expression-form run (including the
rendering of its result) raises SyntaxError at run time; in that latter
case the expression form has already run the fragment, and the statement
form re-runs it from the namespace the expression attempt left, appending
its output — so side effects can be performed twice. -/
theorem fallback_condition (f : Fragment) (ns : Namespace) :
    ((runBody f ns).usedFallback = true ↔
      (f.exprCompiles = false ∨
        (∃ e, (f.evalRun ns).result = Except.error e ∧ e.cls = ExcClass.syntaxError) ∨
        (∃ v e, (f.evalRun ns).result = Except.ok (some v) ∧ v.rep = Except.error e ∧
          e.cls = ExcClass.syntaxError))) ∧
    (∀ e, f.exprCompiles = true → (f.evalRun ns).result = Except.error e →
      e.cls = ExcClass.syntaxError → f.execCompiles = true →
      (runBody f ns).out = (f.evalRun ns).out ++ (f.execRun (f.evalRun ns).ns).out ∧
      (runBody f ns).ns = (f.execRun (f.evalRun ns).ns).ns) := by
  constructor
  · unfold runBody
    by_cases hc : f.exprCompiles
    · simp only [hc, if_true]
      cases hres : (f.evalRun ns).result with
      | ok o =>
          cases o with
          | none => simp [hres]
          | some v =>
              cases hrep : v.rep with
              | ok s => simp [hres, hrep]
              | error e =>
                  by_cases he : e.cls = ExcClass.syntaxError
                  · simp [hres, hrep, he, execFallback_usedFallback]
                  · simp [hres, hrep, he]
      | error e =>
          by_cases he : e.cls = ExcClass.syntaxError
          · simp [hres, he, execFallback_usedFallback]
          · simp [hres, he]
    · simp [hc, execFallback_usedFallback]
  · intro e hc hres he hxc
    have hz : runBody f ns =
        execFallback f (f.evalRun ns).ns (f.evalRun ns).out (f.evalRun ns).errOut := by
      unfold runBody
      simp [hc, hres, he]
    rw [hz]
    unfold execFallback
    simp only [hxc, if_true]
    cases h2 : (f.execRun (f.evalRun ns).ns).result <;> simp [h2]

/-- Witness for `fallback_condition`, at the double-running fragment on
the empty namespace. -/
theorem fallback_condition_witness :
    (runBody fragDoubleRun []).usedFallback = true ∧
    (runBody fragDoubleRun []).out =
      (fragDoubleRun.evalRun []).out ++
        (fragDoubleRun.execRun (fragDoubleRun.evalRun []).ns).out := by
  have h := fallback_condition fragDoubleRun []
  refine ⟨h.1.mpr (Or.inr (Or.inl
    ⟨⟨ExcClass.syntaxError, "SyntaxError: unexpected EOF"⟩, rfl, rfl⟩)), ?_⟩
  exact (h.2 ⟨ExcClass.syntaxError, "SyntaxError: unexpected EOF"⟩ rfl rfl rfl rfl).1

/-- Shape of a crashing `execute` call: exactly a body exception outside
the Exception class escapes. -/
lemma execute_crash (f : Fragment) (ns : Namespace) (n : Nat) (e : PyExc) (ns2 : Namespace)
    (h : execute f ns n = ExecuteResult.crash e ns2) :
    (runBody f ns).exc = some e ∧ e.cls.isException = false := by
  simp only [execute] at h
  cases hb : (runBody f ns).exc with
  | some e2 =>
      simp only [hb] at h
      by_cases hie : e2.cls.isException = true
      · rw [if_pos hie] at h
        exact ExecuteResult.noConfusion h
      · rw [if_neg hie] at h
        injection h with h1 h2
        subst h1
        exact ⟨rfl, Bool.not_eq_true _ |>.mp hie⟩
  | none =>
      simp only [hb] at h
      exact ExecuteResult.noConfusion h

/-- Counterexample to C1 as stated: a fragment raising a system-exit
request (SystemExit, outside the ordinary Exception class). No response
with a populated error is written for that connection, and the accept loop
dies: a subsequent healthy request is never served. -/
theorem system_exit_kills_server_cex :
    runServer ⟨[], 1⟩ [codeRequest fragSysExit, codeRequest fragExprOk] =
      ⟨[], ⟨[], 1⟩, some ⟨ExcClass.baseOnly, "SystemExit"⟩⟩ :=
  rfl

/-- C1 amended: an execution failure of the ordinary Exception class is
recovered inside the server — the one response carries the failure trace
in its non-null error field and the accept loop continues to serve the
remaining connections; an exception outside the Exception class (such as a
system-exit request) is caught by no handler: no response is written and
the loop terminates. -/
theorem exception_recovered_server_continues (st : ServerState) (f : Fragment) (e : PyExc)
    (rest : List Request) (hexc : (runBody f st.ns).exc = some e) :
    (e.cls.isException = true →
      ∃ resp, handleRequest (codeRequest f) st =
          ReqResult.ok resp ⟨(runBody f st.ns).ns, st.counter + 1⟩ ∧
        resp.error = some e.trace ∧
        runServer st (codeRequest f :: rest) =
          ⟨resp :: (runServer ⟨(runBody f st.ns).ns, st.counter + 1⟩ rest).responses,
           (runServer ⟨(runBody f st.ns).ns, st.counter + 1⟩ rest).final,
           (runServer ⟨(runBody f st.ns).ns, st.counter + 1⟩ rest).crashed⟩) ∧
    (e.cls.isException = false →
      runServer st (codeRequest f :: rest) =
        ⟨[], ⟨(runBody f st.ns).ns, st.counter⟩, some e⟩) := by
  constructor
  · intro hie
    refine ⟨⟨composeStdout f.text st.counter (runBody f st.ns).out (runBody f st.ns).outRepr,
      (runBody f st.ns).errOut, some e.trace, none⟩, ?_, rfl, ?_⟩
    · simp only [handleRequest, codeRequest, execute, hexc, hie, if_true]
    · simp only [runServer, handleRequest, codeRequest, execute, hexc, hie, if_true]
  · intro hie
    simp only [runServer, handleRequest, codeRequest, execute, hexc, hie,
      Bool.false_eq_true, if_false]

/-- Witness for `exception_recovered_server_continues`: the fragment `1/0`
raising ZeroDivisionError, followed by a healthy request that is still
served. -/
theorem exception_recovered_server_continues_witness :
    ∃ resp, handleRequest (codeRequest fragRaise) ⟨[], 1⟩ =
        ReqResult.ok resp ⟨(runBody fragRaise []).ns, 2⟩ ∧
      resp.error = some "ZeroDivisionError: division by zero" ∧
      runServer ⟨[], 1⟩ [codeRequest fragRaise, codeRequest fragExprOk] =
        ⟨resp :: (runServer ⟨(runBody fragRaise []).ns, 2⟩ [codeRequest fragExprOk]).responses,
         (runServer ⟨(runBody fragRaise []).ns, 2⟩ [codeRequest fragExprOk]).final,
         (runServer ⟨(runBody fragRaise []).ns, 2⟩ [codeRequest fragExprOk]).crashed⟩ :=
  (exception_recovered_server_continues ⟨[], 1⟩ fragRaise
    ⟨ExcClass.exception, "ZeroDivisionError: division by zero"⟩
    [codeRequest fragExprOk] rfl).1 rfl

/-- Associativity of string concatenation. -/
lemma string_append_assoc (a b c : String) : (a ++ b) ++ c = a ++ (b ++ c) := by
  cases a; cases b; cases c
  simp only [HAppend.hAppend, Append.append, String.append]
  simp

/-- The transcript header opens with the `In [n]: ` marker. -/
lemma _format_input_marker (code : String) (n : Nat) :
    ∃ tail, _format_input code n = "In [" ++ toString n ++ "]: " ++ tail := by
  refine ⟨(if pySplitlines code = [] then [""] else pySplitlines code).headD "" ++ ("\n" ++
    String.join (((if pySplitlines code = [] then [""] else pySplitlines code).drop 1).map
      (fun line => "   ...: " ++ line ++ "\n"))), ?_⟩
  unfold _format_input
  simp [string_append_assoc]

/-- A non-crashing execution opens its stdout with the `In [n]: ` marker. -/
lemma execute_ok_marker (f : Fragment) (ns : Namespace) (n : Nat) (resp : Response)
    (ns2 : Namespace) (h : execute f ns n = ExecuteResult.ok resp ns2) :
    ∃ tail, resp.stdout = "In [" ++ toString n ++ "]: " ++ tail := by
  obtain ⟨h1, _, _, _, _⟩ := execute_ok_resp f ns n resp ns2 h
  obtain ⟨t0, ht⟩ := _format_input_marker f.text n
  refine ⟨t0 ++ (appendCaptured (runBody f ns).out ++
    (match (runBody f ns).outRepr with | some r => outLine n r | none => "")), ?_⟩
  rw [h1]
  unfold composeStdout
  rw [ht]
  simp [string_append_assoc]

/-- Over a run of code requests none of which can raise outside the
Exception class, the i-th connection is formatted with counter value
`st.counter + i`. -/
lemma runServer_code_markers (frags : List Fragment) :
    ∀ st : ServerState,
      (∀ f ∈ frags, ∀ (ns : Namespace) (e : PyExc),
        (runBody f ns).exc = some e → e.cls.isException = true) →
      ∀ i : Nat, i < frags.length →
        ∃ resp tail,
          ((runServer st (frags.map codeRequest)).responses)[i]? = some resp ∧
          resp.stdout = "In [" ++ toString (st.counter + i) ++ "]: " ++ tail := by
  induction frags with
  | nil =>
      intro st hsafe i hi
      exact absurd hi (by simp)
  | cons f fs ih =>
      intro st hsafe i hi
      cases hexec : execute f st.ns st.counter with
      | crash e nsx =>
          obtain ⟨hb, hie⟩ := execute_crash f st.ns st.counter e nsx hexec
          have hsf := hsafe f (List.mem_cons_self f fs) st.ns e hb
          rw [hsf] at hie
          exact Bool.noConfusion hie
      | ok resp0 nsx =>
          have hr : runServer st ((f :: fs).map codeRequest) =
              ⟨resp0 :: (runServer ⟨nsx, st.counter + 1⟩ (fs.map codeRequest)).responses,
               (runServer ⟨nsx, st.counter + 1⟩ (fs.map codeRequest)).final,
               (runServer ⟨nsx, st.counter + 1⟩ (fs.map codeRequest)).crashed⟩ := by
            simp only [List.map_cons, runServer, handleRequest, codeRequest, hexec]
          cases i with
          | zero =>
              obtain ⟨tail, htail⟩ := execute_ok_marker f st.ns st.counter resp0 nsx hexec
              refine ⟨resp0, tail, ?_, ?_⟩
              · rw [hr]
                simp
              · rw [Nat.add_zero]
                exact htail
          | succ j =>
              have hj : j < fs.length := by
                simp only [List.length_cons] at hi
                omega
              obtain ⟨resp, tail, h1, h2⟩ := ih ⟨nsx, st.counter + 1⟩
                (fun g hg => hsafe g (List.mem_cons_of_mem f hg)) j hj
              refine ⟨resp, tail, ?_, ?_⟩
              · rw [hr]
                simpa using h1
              · have hcnt : st.counter + (j + 1) = st.counter + 1 + j := by omega
                rw [hcnt]
                exact h2

/-- A request not dispatched as code never advances the counter. -/
lemma non_code_counter (st : ServerState) (req : Request)
    (h : req.setField.isSome ∨ req.getField.isSome ∨ req.codeField = none) :
    ∀ resp st2, handleRequest req st = ReqResult.ok resp st2 → st2.counter = st.counter := by
  obtain ⟨s, g, c⟩ := req
  intro resp st2 hh
  cases s with
  | some p =>
      cases hd : p.decodeResult with
      | ok u =>
          simp only [handleRequest, hd] at hh
          injection hh with h1 h2
          rw [← h2]
      | error t =>
          simp only [handleRequest, hd] at hh
          injection hh with h1 h2
          rw [← h2]
  | none =>
      cases g with
      | some name =>
          cases hg : nsGet st.ns name with
          | none =>
              simp only [handleRequest, hg] at hh
              injection hh with h1 h2
              rw [← h2]
          | some v =>
              cases he : v.enc with
              | ok s2 =>
                  simp only [handleRequest, hg, he] at hh
                  injection hh with h1 h2
                  rw [← h2]
              | error t =>
                  simp only [handleRequest, hg, he] at hh
                  injection hh with h1 h2
                  rw [← h2]
      | none =>
          cases c with
          | some f =>
              rcases h with h | h | h <;> simp at h
          | none =>
              simp only [handleRequest] at hh
              injection hh with h1 h2
              rw [← h2]

/-- C7: over any run of consecutive code requests that complete, the i-th
request (0-based) is formatted with counter value `c + i` where `c` is the
counter at the start — with `c = 1` at server start this is the marker run
`In [1] .. In [N]`, with no gaps or repeats, including requests whose
execution raised; and a request dispatched as `set` or `get`, or rejected
as malformed, leaves the counter unchanged. -/
theorem counter_monotone :
    (∀ (frags : List Fragment) (st : ServerState),
      (∀ f ∈ frags, ∀ (ns : Namespace) (e : PyExc),
        (runBody f ns).exc = some e → e.cls.isException = true) →
      ∀ i, i < frags.length →
        ∃ resp tail,
          ((runServer st (frags.map codeRequest)).responses)[i]? = some resp ∧
          resp.stdout = "In [" ++ toString (st.counter + i) ++ "]: " ++ tail) ∧
    (∀ (st : ServerState) (req : Request),
      req.setField.isSome ∨ req.getField.isSome ∨ req.codeField = none →
      ∀ resp st2, handleRequest req st = ReqResult.ok resp st2 → st2.counter = st.counter) :=
  ⟨fun frags st hsafe i hi => runServer_code_markers frags st hsafe i hi,
   fun st req h => non_code_counter st req h⟩

/-- Witness for `counter_monotone`: a raising then a healthy code request
from counter 1 produce markers In [1] and In [2]; a set request leaves the
counter at 7. -/
theorem counter_monotone_witness :
    (∃ resp tail,
      ((runServer ⟨[], 1⟩ ([fragRaise, fragExprOk].map codeRequest)).responses)[1]? =
        some resp ∧
      resp.stdout = "In [" ++ toString ((⟨[], 1⟩ : ServerState).counter + 1) ++ "]: " ++ tail) ∧
    (∀ resp st2, handleRequest (setRequest payloadA) ⟨[], 7⟩ = ReqResult.ok resp st2 →
      st2.counter = (⟨[], 7⟩ : ServerState).counter) := by
  constructor
  · refine counter_monotone.1 [fragRaise, fragExprOk] ⟨[], 1⟩ ?_ 1 (by decide)
    intro f hf ns e he
    simp only [List.mem_cons, List.not_mem_nil, or_false] at hf
    rcases hf with rfl | rfl
    · simp only [runBody, fragRaise] at he
      simp at he
      rw [← he]
      rfl
    · simp only [runBody, fragExprOk] at he
      simp at he
  · exact counter_monotone.2 ⟨[], 7⟩ (setRequest payloadA) (Or.inl rfl)

end ReplBox

namespace ReplBoxNotebook

/-- An entry of a captured globals dict, as the sanitizer observes it: the
`__module__` of its type, whether `cloudpickle.dumps` succeeds on it, and
an opaque payload distinguishing values. -/
structure GVal where
  typeModule : String
  picklable : Bool
  payload : Nat
deriving DecidableEq, Repr

/-- The fixed `_IPYTHON_INJECTED` denylist of host-injected names. -/
def IPYTHON_INJECTED : List String :=
  ["get_ipython", "display", "exit", "quit", "In", "Out",
   "_", "__", "___", "_i", "_ii", "_iii", "_ih", "_oh", "_dh"]

/-- `k.startswith("_i") and k[2:].isdigit()`: numbered-history names such
as `_i1`, `_i42` (`isdigit` is false on the empty string). -/
def isNumberedHistory (k : String) : Bool :=
  "_i".data.isPrefixOf k.data &&
    (!(k.data.drop 2).isEmpty && (k.data.drop 2).all Char.isDigit)

/-- `module.startswith(("zmq.", "ipykernel.", "IPython."))` on the
`__module__` of the value type. -/
def isDenylistedModule (m : String) : Bool :=
  "zmq.".data.isPrefixOf m.data || "ipykernel.".data.isPrefixOf m.data ||
    "IPython.".data.isPrefixOf m.data

/-- `_is_notebook_global(k, v)`. -/
def _is_notebook_global (k : String) (v : GVal) : Bool :=
  k ∈ IPYTHON_INJECTED || isNumberedHistory k || isDenylistedModule v.typeModule

/-- A Python function object as the sanitizer sees it: `__code__`,
`__name__`, `__defaults__` and `__closure__` are opaque identities, the
globals dict is an association list. -/
structure Func where
  code : Nat
  name : String
  defaults : Nat
  closure : Nat
  globals : List (String × GVal)
deriving DecidableEq, Repr

/-- A sanitizer input: either not a callable carrying `__globals__`
(returned as is), or a function object. -/
inductive PyObject where
  | plain (payload : Nat)
  | func (f : Func)
deriving DecidableEq, Repr

/-- The `clean` dict built by the sanitizer loop: an entry survives when
`_is_notebook_global` rejects it is false and the `cloudpickle.dumps`
probe succeeds; every other entry is dropped silently. -/
def cleanGlobals (gs : List (String × GVal)) : List (String × GVal) :=
  gs.filter fun kv => !(_is_notebook_global kv.1 kv.2) && kv.2.picklable

/-- `clean_for_notebook(fn)`: fast path returns the input unchanged when
it is not a function with `__globals__` or when `get_ipython` is not among
its global names; otherwise a new function with the same `__code__`,
`__name__`, `__defaults__`, `__closure__` and the reduced globals dict. -/
def clean_for_notebook : PyObject → PyObject
  | .plain p => .plain p
  | .func f =>
      if f.globals.any (fun kv => kv.1 = "get_ipython") then
        .func ⟨f.code, f.name, f.defaults, f.closure, cleanGlobals f.globals⟩
      else .func f

/-! Concrete sanitizer inputs used to instantiate the theorems. -/

/-- A value of an IPython-internal type (dropped by the module denylist). -/
def gIp : GVal := ⟨"IPython.core.interactiveshell", false, 0⟩

/-- An ordinary transportable value. -/
def gKeep : GVal := ⟨"builtins", true, 1⟩

/-- A value the pickling probe rejects (e.g. a sqlite3 connection). -/
def gNoPickle : GVal := ⟨"sqlite3", false, 2⟩

/-- A function captured in a notebook: its globals hold `get_ipython`, an
ordinary entry, an unpicklable entry, and a numbered-history entry. -/
def funcNb : Func :=
  ⟨100, "fn", 0, 0,
   [("get_ipython", gIp), ("MY_KEY", gKeep), ("db", gNoPickle), ("_i3", gKeep)]⟩

/-- A function whose globals carry no `get_ipython` binding. -/
def funcPlainGlobals : Func := ⟨7, "g", 1, 2, [("x", gKeep)]⟩

/-- C8: past the fast path, an entry of the captured globals survives into
the reduced set exactly when its name is not on the `_IPYTHON_INJECTED`
denylist, its name is not a `_i<digits>` numbered-history name, the
`__module__` of its type is not in the zmq/ipykernel/IPython family, and
the `cloudpickle.dumps` probe succeeds on its value; every other entry is
dropped with no error reported. -/
theorem sanitizer_keep_iff (f : Func)
    (h : f.globals.any (fun kv => kv.1 = "get_ipython") = true) :
    clean_for_notebook (PyObject.func f) =
      PyObject.func ⟨f.code, f.name, f.defaults, f.closure, cleanGlobals f.globals⟩ ∧
    ∀ k v, ((k, v) ∈ cleanGlobals f.globals ↔
      ((k, v) ∈ f.globals ∧ k ∉ IPYTHON_INJECTED ∧ isNumberedHistory k = false ∧
        isDenylistedModule v.typeModule = false ∧ v.picklable = true)) := by
  constructor
  · simp [clean_for_notebook, h]
  · intro k v
    simp only [cleanGlobals, List.mem_filter, _is_notebook_global, Bool.and_eq_true,
      Bool.not_eq_true', Bool.or_eq_false_iff, decide_eq_false_iff_not]
    tauto

/-- Witness for `sanitizer_keep_iff`, at a notebook function whose globals
mix all four entry kinds; instantiated at the ordinary entry. -/
theorem sanitizer_keep_iff_witness :
    (clean_for_notebook (PyObject.func funcNb) =
      PyObject.func ⟨funcNb.code, funcNb.name, funcNb.defaults, funcNb.closure,
        cleanGlobals funcNb.globals⟩) ∧
    (("MY_KEY", gKeep) ∈ cleanGlobals funcNb.globals ↔
      (("MY_KEY", gKeep) ∈ funcNb.globals ∧ "MY_KEY" ∉ IPYTHON_INJECTED ∧
        isNumberedHistory "MY_KEY" = false ∧
        isDenylistedModule gKeep.typeModule = false ∧ gKeep.picklable = true)) := by
  have h := sanitizer_keep_iff funcNb rfl
  exact ⟨h.1, h.2 "MY_KEY" gKeep⟩

/-- C9: the sanitizer returns its input unchanged when it is not a
callable exposing captured globals, or when those globals do not bind
`get_ipython`; otherwise it returns a new callable with the same
`__code__`, `__name__`, `__defaults__` and `__closure__`, bound to the
reduced globals set. (The embedding is pure, so the original object is
never mutated by construction.) -/
theorem sanitizer_fast_path_and_rebuild :
    (∀ p : Nat, clean_for_notebook (PyObject.plain p) = PyObject.plain p) ∧
    (∀ f : Func, f.globals.any (fun kv => kv.1 = "get_ipython") = false →
      clean_for_notebook (PyObject.func f) = PyObject.func f) ∧
    (∀ f : Func, f.globals.any (fun kv => kv.1 = "get_ipython") = true →
      ∃ g : Func, clean_for_notebook (PyObject.func f) = PyObject.func g ∧
        g.code = f.code ∧ g.name = f.name ∧ g.defaults = f.defaults ∧
        g.closure = f.closure ∧ g.globals = cleanGlobals f.globals) := by
  refine ⟨fun p => rfl, fun f h => by simp [clean_for_notebook, h], fun f h => ?_⟩
  exact ⟨⟨f.code, f.name, f.defaults, f.closure, cleanGlobals f.globals⟩,
    by simp [clean_for_notebook, h], rfl, rfl, rfl, rfl, rfl⟩

/-- Witness for `sanitizer_fast_path_and_rebuild`: a non-callable, a
function with no `get_ipython` global, and a notebook function. -/
theorem sanitizer_fast_path_and_rebuild_witness :
    clean_for_notebook (PyObject.plain 7) = PyObject.plain 7 ∧
    clean_for_notebook (PyObject.func funcPlainGlobals) = PyObject.func funcPlainGlobals ∧
    (∃ g : Func, clean_for_notebook (PyObject.func funcNb) = PyObject.func g ∧
      g.code = funcNb.code ∧ g.name = funcNb.name ∧ g.defaults = funcNb.defaults ∧
      g.closure = funcNb.closure ∧ g.globals = cleanGlobals funcNb.globals) :=
  ⟨sanitizer_fast_path_and_rebuild.1 7,
   sanitizer_fast_path_and_rebuild.2.1 funcPlainGlobals rfl,
   sanitizer_fast_path_and_rebuild.2.2 funcNb rfl⟩

end ReplBoxNotebook
